import Mathlib

/-!
Formal model of the carbonsiteAI scoring and financial core.

The definitions below are a shallow embedding of the two modules
`src/backend/site_screening.py` (class SiteScreeningEngine) and
`src/backend/financial_modeling.py` (class FinancialModel).
Python floats are modelled as rationals, Python strings as `String`,
and operations that can raise at runtime (division by zero) return
`Except PyErr`.
-/

namespace CarbonSiteAI

/-- Runtime errors of the Python code that the embedding makes explicit. -/
inductive PyErr where
  | zeroDivision
  | indexError
deriving DecidableEq

/-! ### Site screening data model (site_screening.py, class SiteMetrics) -/

/-- Embeds the dataclass `SiteMetrics`: every field of the Python dataclass,
floats as rationals, the categorical fields as strings. -/
structure SiteMetrics where
  site_id : String
  name : String
  country : String
  region : String
  latitude : ℚ
  longitude : ℚ
  co2_volume_tpy : ℚ
  co2_concentration : ℚ
  co2_impurities : String
  co2_availability_score : ℚ
  power_price_eur_mwh : ℚ
  power_availability : ℚ
  renewable_energy_share : ℚ
  energy_score : ℚ
  emissions_intensity : ℚ
  eu_ets_price : ℚ
  cbam_applicable : Bool
  policy_score : ℚ
  industrial_zone : String
  utility_availability : String
  transport_access : String
  infrastructure_score : ℚ
  labor_costs : ℚ
  land_costs : ℚ
  tax_incentives : ℚ
  financial_score : ℚ
  total_score : ℚ
  ranking : ℕ
deriving DecidableEq

/-- Embeds `SiteScreeningEngine.calculate_co2_score` (site_screening.py lines 82-96).
Note the concentration term carries no clamp of its own in the source; only the
final sum is clamped to the interval from 0 to 100. -/
def calculate_co2_score (site : SiteMetrics) : ℚ :=
  let volume_score := min 50 (site.co2_volume_tpy / 1000 * 50)
  let concentration_score := (site.co2_concentration - 20) / 80 * 30
  let impurity_score : ℚ := 20
  min 100 (max 0 (volume_score + concentration_score + impurity_score))

/-- Embeds `SiteScreeningEngine.calculate_energy_score` (lines 98-117). -/
def calculate_energy_score (site : SiteMetrics) : ℚ :=
  let price_score : ℚ :=
    if site.power_price_eur_mwh ≤ 50 then 50
    else if site.power_price_eur_mwh ≥ 150 then 0
    else 50 - (site.power_price_eur_mwh - 50) / 100 * 50
  let renewable_score := site.renewable_energy_share * 0.3
  let availability_score := site.power_availability * 0.2
  min 100 (max 0 (price_score + renewable_score + availability_score))

/-- Embeds `SiteScreeningEngine.calculate_policy_score` (lines 119-143). -/
def calculate_policy_score (site : SiteMetrics) : ℚ :=
  let ets_score : ℚ :=
    if site.eu_ets_price ≥ 80 then 40
    else if site.eu_ets_price ≤ 40 then 0
    else (site.eu_ets_price - 40) / 40 * 40
  let cbam_score : ℚ := if site.cbam_applicable then 30 else 0
  let intensity_score : ℚ :=
    if site.emissions_intensity ≤ 200 then 30
    else if site.emissions_intensity ≥ 800 then 0
    else 30 - (site.emissions_intensity - 200) / 600 * 30
  min 100 (max 0 (ets_score + cbam_score + intensity_score))

/-- Embeds the dictionary lookup `zone_scores.get(site.industrial_zone, 15)`
of `calculate_infrastructure_score` (lines 148-156). -/
def zone_scores_get (z : String) : ℚ :=
  if z = "Chemical" then 40
  else if z = "Refinery" then 35
  else if z = "Steel" then 30
  else if z = "Cement" then 25
  else if z = "Power" then 20
  else if z = "Other" then 15
  else 15

/-- Embeds the dictionary lookup `utility_scores.get(site.utility_availability, 15)`
of `calculate_infrastructure_score` (lines 158-165): the default for a key that is
not in the table is 15, although the lowest table value is 10. -/
def utility_scores_get (u : String) : ℚ :=
  if u = "Excellent" then 30
  else if u = "Good" then 25
  else if u = "Fair" then 20
  else if u = "Poor" then 10
  else 15

/-- Embeds the dictionary lookup `transport_scores.get(site.transport_access, 15)`
of `calculate_infrastructure_score` (lines 167-174): default 15, lowest table value 10. -/
def transport_scores_get (t : String) : ℚ :=
  if t = "Excellent" then 30
  else if t = "Good" then 25
  else if t = "Fair" then 20
  else if t = "Poor" then 10
  else 15

/-- Embeds `SiteScreeningEngine.calculate_infrastructure_score` (lines 145-177). -/
def calculate_infrastructure_score (site : SiteMetrics) : ℚ :=
  min 100 (max 0 (zone_scores_get site.industrial_zone +
    utility_scores_get site.utility_availability +
    transport_scores_get site.transport_access))

/-- Embeds `SiteScreeningEngine.calculate_financial_score` (lines 179-202). -/
def calculate_financial_score (site : SiteMetrics) : ℚ :=
  let labor_score : ℚ :=
    if site.labor_costs ≤ 25 then 40
    else if site.labor_costs ≥ 50 then 0
    else 40 - (site.labor_costs - 25) / 25 * 40
  let land_score : ℚ :=
    if site.land_costs ≤ 100 then 30
    else if site.land_costs ≥ 500 then 0
    else 30 - (site.land_costs - 100) / 400 * 30
  let incentive_score := min 30 (site.tax_incentives * 0.3)
  min 100 (max 0 (labor_score + land_score + incentive_score))

/-- The weight dictionary `self.weights` of `SiteScreeningEngine.__init__`. -/
structure Weights where
  co2_availability : ℚ
  energy : ℚ
  policy : ℚ
  infrastructure : ℚ
  financial : ℚ
deriving DecidableEq

/-- The default weights set in `SiteScreeningEngine.__init__` (lines 65-71). -/
def defaultWeights : Weights :=
  { co2_availability := 0.25, energy := 0.20, policy := 0.20,
    infrastructure := 0.15, financial := 0.20 }

/-- One iteration of the scoring loop of `evaluate_sites` (lines 208-223):
fills the five sub-score fields and the weighted `total_score` of a site. -/
def scoreSite (w : Weights) (site : SiteMetrics) : SiteMetrics :=
  let c := calculate_co2_score site
  let e := calculate_energy_score site
  let p := calculate_policy_score site
  let i := calculate_infrastructure_score site
  let f := calculate_financial_score site
  { site with
    co2_availability_score := c
    energy_score := e
    policy_score := p
    infrastructure_score := i
    financial_score := f
    total_score := c * w.co2_availability + e * w.energy + p * w.policy +
      i * w.infrastructure + f * w.financial }

/-- The comparison used by `self.sites.sort(key=lambda x: x.total_score, reverse=True)`:
a sits (weakly) before b when the total score of b is at most that of a. -/
def scoreLE (a b : SiteMetrics) : Bool := decide (b.total_score ≤ a.total_score)

/-- The ranking loop of `evaluate_sites` (lines 229-230): the site at 0-based
position i receives ranking i + 1. -/
def assignRanks : ℕ → List SiteMetrics → List SiteMetrics
  | _, [] => []
  | i, s :: rest => { s with ranking := i + 1 } :: assignRanks (i + 1) rest

/-- Embeds `SiteScreeningEngine.evaluate_sites` (lines 204-233) as a pure function:
score every site, sort descending by total score with a stable sort (the CPython
list sort is stable), then assign 1-based rankings in order. -/
def evaluate_sites (w : Weights) (sites : List SiteMetrics) : List SiteMetrics :=
  assignRanks 0 (List.mergeSort (sites.map (scoreSite w)) scoreLE)

/-! ### Engine state, add_site, filter_sites (site_screening.py) -/

/-- A field mapping passed to `add_site`: each dataclass field of SiteMetrics may be
present or missing. (Python dataclasses do not check field types at run time, so a
present field always carries a value of the declared type in this model; a missing
required field makes `SiteMetrics(**site_data)` raise TypeError.) -/
structure SiteData where
  site_id : Option String
  name : Option String
  country : Option String
  region : Option String
  latitude : Option ℚ
  longitude : Option ℚ
  co2_volume_tpy : Option ℚ
  co2_concentration : Option ℚ
  co2_impurities : Option String
  co2_availability_score : Option ℚ
  power_price_eur_mwh : Option ℚ
  power_availability : Option ℚ
  renewable_energy_share : Option ℚ
  energy_score : Option ℚ
  emissions_intensity : Option ℚ
  eu_ets_price : Option ℚ
  cbam_applicable : Option Bool
  policy_score : Option ℚ
  industrial_zone : Option String
  utility_availability : Option String
  transport_access : Option String
  infrastructure_score : Option ℚ
  labor_costs : Option ℚ
  land_costs : Option ℚ
  tax_incentives : Option ℚ
  financial_score : Option ℚ
  total_score : Option ℚ
  ranking : Option ℕ

/-- The constructor call `SiteMetrics(**site_data)` inside `add_site` (line 76):
succeeds exactly when every required field is present. -/
def buildSite (d : SiteData) : Option SiteMetrics :=
  match d.site_id, d.name, d.country, d.region, d.latitude, d.longitude, d.co2_volume_tpy, d.co2_concentration, d.co2_impurities, d.co2_availability_score, d.power_price_eur_mwh, d.power_availability, d.renewable_energy_share, d.energy_score, d.emissions_intensity, d.eu_ets_price, d.cbam_applicable, d.policy_score, d.industrial_zone, d.utility_availability, d.transport_access, d.infrastructure_score, d.labor_costs, d.land_costs, d.tax_incentives, d.financial_score, d.total_score, d.ranking with
  | some site_id, some name, some country, some region, some latitude, some longitude, some co2_volume_tpy, some co2_concentration, some co2_impurities, some co2_availability_score, some power_price_eur_mwh, some power_availability, some renewable_energy_share, some energy_score, some emissions_intensity, some eu_ets_price, some cbam_applicable, some policy_score, some industrial_zone, some utility_availability, some transport_access, some infrastructure_score, some labor_costs, some land_costs, some tax_incentives, some financial_score, some total_score, some ranking =>
    some { site_id := site_id, name := name, country := country, region := region, latitude := latitude, longitude := longitude, co2_volume_tpy := co2_volume_tpy, co2_concentration := co2_concentration, co2_impurities := co2_impurities, co2_availability_score := co2_availability_score, power_price_eur_mwh := power_price_eur_mwh, power_availability := power_availability, renewable_energy_share := renewable_energy_share, energy_score := energy_score, emissions_intensity := emissions_intensity, eu_ets_price := eu_ets_price, cbam_applicable := cbam_applicable, policy_score := policy_score, industrial_zone := industrial_zone, utility_availability := utility_availability, transport_access := transport_access, infrastructure_score := infrastructure_score, labor_costs := labor_costs, land_costs := land_costs, tax_incentives := tax_incentives, financial_score := financial_score, total_score := total_score, ranking := ranking }
  | _, _, _, _, _, _, _, _, _, _, _, _, _, _, _, _, _, _, _, _, _, _, _, _, _, _, _, _ => none

/-- The mutable state of a `SiteScreeningEngine` instance. -/
structure SiteScreeningEngine where
  sites : List SiteMetrics
  weights : Weights

/-- Embeds `SiteScreeningEngine.add_site` (lines 73-80): the constructor call is
wrapped in try/except; on failure the error is only logged, the method returns
normally and the site list is left unchanged (the site is silently dropped). -/
def add_site (e : SiteScreeningEngine) (d : SiteData) : SiteScreeningEngine :=
  match buildSite d with
  | some s => { e with sites := e.sites ++ [s] }
  | none => e

/-- One numeric criterion block of `filter_sites`: the bare `if criterion:` test
of the source is truthy exactly when the value is present and nonzero. -/
def applyNumFilter (o : Option ℚ) (test : ℚ → SiteMetrics → Bool)
    (l : List SiteMetrics) : List SiteMetrics :=
  match o with
  | some v => if v ≠ 0 then l.filter (test v) else l
  | none => l

/-- The country-allowlist block of `filter_sites`: an absent or empty list is
falsy and skips the filter. -/
def applyCountryFilter (o : Option (List String)) (l : List SiteMetrics) :
    List SiteMetrics :=
  match o with
  | some cs => if cs ≠ [] then l.filter (fun s => decide (s.country ∈ cs)) else l
  | none => l

/-- Embeds `SiteScreeningEngine.filter_sites` (lines 241-261): the four criterion
blocks in source order, each skipped when its criterion is falsy. -/
def filter_sites (e : SiteScreeningEngine)
    (min_co2_volume : Option ℚ) (max_power_price : Option ℚ)
    (countries : Option (List String)) (min_score : Option ℚ) : List SiteMetrics :=
  applyNumFilter min_score (fun v s => decide (v ≤ s.total_score))
    (applyCountryFilter countries
      (applyNumFilter max_power_price (fun v s => decide (s.power_price_eur_mwh ≤ v))
        (applyNumFilter min_co2_volume (fun v s => decide (v ≤ s.co2_volume_tpy))
          e.sites)))

/-! ### Financial modeling data model (financial_modeling.py) -/

/-- Embeds the dataclass `ProjectParameters` (lines 17-36); the dataclass defaults
are lifetime 20, construction 2, ramp-up 1, discount 0.10, inflation 0.02,
tax 0.25, ETS 85, CBAM true, credit price 85. -/
structure ProjectParameters where
  project_name : String
  site_name : String
  co2_input_tpy : ℚ
  co_output_tpy : ℚ
  project_lifetime_years : ℕ
  construction_period_years : ℕ
  ramp_up_period_years : ℕ
  discount_rate : ℚ
  inflation_rate : ℚ
  tax_rate : ℚ
  eu_ets_price_eur_ton : ℚ
  cbam_applicable : Bool
  carbon_credit_price_eur_ton : ℚ
deriving DecidableEq

/-- Embeds the dataclass `CostStructure` (lines 38-60). -/
structure CostStructure where
  equipment_capex : ℚ
  installation_capex : ℚ
  engineering_capex : ℚ
  contingency_capex : ℚ
  total_capex : ℚ
  electricity_cost : ℚ
  water_cost : ℚ
  labor_cost : ℚ
  maintenance_cost : ℚ
  insurance_cost : ℚ
  total_opex : ℚ
  co_sales_revenue : ℚ
  carbon_credits_revenue : ℚ
  avoided_co2_costs : ℚ
  total_revenue : ℚ
deriving DecidableEq

/-- Embeds `FinancialModel.calculate_capex` (lines 71-109). Line 84 divides
`total_capex` by `construction_period_years` (for a log message), so the call
raises ZeroDivisionError when the construction period is zero. -/
def calculate_capex (p : ProjectParameters) (equipment_cost : ℚ)
    (installation_factor engineering_factor contingency_factor : ℚ) :
    Except PyErr CostStructure :=
  let installation_capex := equipment_cost * installation_factor
  let engineering_capex := equipment_cost * engineering_factor
  let contingency_capex := equipment_cost * contingency_factor
  let total_capex := equipment_cost + installation_capex + engineering_capex + contingency_capex
  if p.construction_period_years = 0 then Except.error PyErr.zeroDivision
  else Except.ok
    { equipment_capex := equipment_cost
      installation_capex := installation_capex
      engineering_capex := engineering_capex
      contingency_capex := contingency_capex
      total_capex := total_capex
      electricity_cost := 0, water_cost := 0, labor_cost := 0
      maintenance_cost := 0, insurance_cost := 0, total_opex := 0
      co_sales_revenue := 0, carbon_credits_revenue := 0
      avoided_co2_costs := 0, total_revenue := 0 }

/-- The phase label of a cash-flow entry, standing for the `period` strings
`Construction k` / `Ramp-up k` / `Operation k` of the source. -/
inductive Phase where
  | construction
  | rampUp
  | operation
deriving DecidableEq

/-- Embeds the cash-flow dictionaries appended by `generate_cash_flows`
(lines 206-252). The `opex` field stores the negated outflow as in the source. -/
structure CashFlowEntry where
  year : ℕ
  phase : Phase
  capex : ℚ
  opex : ℚ
  revenue : ℚ
  net_cash_flow : ℚ
  cumulative_cash_flow : ℚ
deriving DecidableEq

/-- One phase loop of `generate_cash_flows` for the ramp-up and operation phases:
n entries starting at the given year, every entry with the same capex, opex,
revenue and net cash flow; the cumulative field reads the previous cumulative
(the `cash_flows[-1]` access of lines 231 and 251) and adds the net flow. -/
def accumEntries (phase : Phase) (capex opexOut revenue net : ℚ) :
    ℕ → ℚ → ℕ → List CashFlowEntry
  | _, _, 0 => []
  | year, cum, n + 1 =>
      { year := year, phase := phase, capex := capex, opex := opexOut,
        revenue := revenue, net_cash_flow := net,
        cumulative_cash_flow := cum + net } ::
      accumEntries phase capex opexOut revenue net (year + 1) (cum + net) n

/-- The source access cash_flows[-1] of the cumulative field: cumulative field of the
last entry. The default 0 is never reached at the call sites, because the
construction phase has at least one entry whenever the function proceeds past
the division of line 204. -/
def lastCum (l : List CashFlowEntry) : ℚ :=
  (l.getLast?.map CashFlowEntry.cumulative_cash_flow).getD 0

/-- The construction loop of `generate_cash_flows` (lines 205-215): n entries,
each with capex outflow equal to the yearly capex share, zero opex and revenue,
and cumulative flow written directly as -annual_capex * (year + 1). -/
def constructionEntries (annual_capex : ℚ) (n : ℕ) : List CashFlowEntry :=
  (List.range n).map fun y =>
    { year := y, phase := Phase.construction, capex := -annual_capex, opex := 0,
      revenue := 0, net_cash_flow := -annual_capex,
      cumulative_cash_flow := -annual_capex * ((y : ℚ) + 1) }

/-- The schedule built by the loop body of `generate_cash_flows` (lines 200-256)
from the three cost totals and the three period lengths: construction entries,
then ramp-up entries at the fixed 0.5 ramp factor, then full-operation entries
for the remaining years (truncated difference, matching the empty Python `range`
on a negative argument). -/
def scheduleOf (tcap topex trev : ℚ) (con ramp life : ℕ) : List CashFlowEntry :=
  let annual_capex := tcap / (con : ℚ)
  let constructionE := constructionEntries annual_capex con
  let ramp_revenue := trev * 0.5
  let ramp_opex := topex * 0.5
  let rampE := accumEntries Phase.rampUp 0 (-ramp_opex) ramp_revenue
    (ramp_revenue - ramp_opex) con (lastCum constructionE) ramp
  let opE := accumEntries Phase.operation 0 (-topex) trev (trev - topex)
    (con + ramp) (lastCum (constructionE ++ rampE)) (life - con - ramp)
  constructionE ++ rampE ++ opE

/-- Embeds `FinancialModel.generate_cash_flows` (lines 194-256): the division of
line 204 raises on a zero construction period; otherwise the construction,
ramp-up and full-operation phases are appended in order. -/
def generate_cash_flows (p : ProjectParameters) (cs : CostStructure) :
    Except PyErr (List CashFlowEntry) :=
  if p.construction_period_years = 0 then Except.error PyErr.zeroDivision
  else Except.ok (scheduleOf cs.total_capex cs.total_opex cs.total_revenue
    p.construction_period_years p.ramp_up_period_years p.project_lifetime_years)

/-- Running sums of a list of flows, threading the accumulator. -/
def runningSumsAux (acc : ℚ) : List ℚ → List ℚ
  | [] => []
  | x :: rest => (acc + x) :: runningSumsAux (acc + x) rest

/-- The running sum of a list of net cash flows, starting from zero: the shape
the cumulative_cash_flow column is claimed to have. -/
def runningSums (l : List ℚ) : List ℚ := runningSumsAux 0 l

/-- Embeds `FinancialModel._estimate_irr` (lines 318-337): average yearly positive
return over the total invested amount, capped at 100. -/
def estimate_irr (cash_flows : List ℚ) : ℚ :=
  if cash_flows.length < 2 then 0
  else
    let total_investment := |(cash_flows.filter (fun cf => decide (cf < 0))).sum|
    let total_return := (cash_flows.filter (fun cf => decide (cf > 0))).sum
    if total_investment = 0 then 0
    else
      let avg_return_per_year := total_return / (cash_flows.length : ℚ)
      min (avg_return_per_year / total_investment * 100) 100

/-- The discounted-sum loop of `calculate_financial_metrics` (lines 269-271),
generalized over the rate: the i-th flow is divided by (1 + rate) to the i. -/
def npvAux (rate : ℚ) : ℕ → List ℚ → ℚ
  | _, [] => 0
  | i, cf :: rest => cf / (1 + rate) ^ i + npvAux rate (i + 1) rest

/-- Net present value of a list of net cash flows at a given rate. -/
def npvOf (rate : ℚ) (nets : List ℚ) : ℚ := npvAux rate 0 nets

/-- The scan of `FinancialModel._calculate_payback_period` (lines 339-346),
with the running index threaded through. -/
def paybackAux (i : ℕ) : List ℚ → ℕ
  | [] => i
  | c :: rest => if c ≥ 0 then i else paybackAux (i + 1) rest

/-- Embeds `FinancialModel._calculate_payback_period`: first index with
non-negative cumulative flow, or the schedule length when there is none. -/
def calculate_payback_period (cums : List ℚ) : ℕ := paybackAux 0 cums

/-- The metrics dictionary assembled by `calculate_financial_metrics` (lines 295-307). -/
structure FinancialMetrics where
  npv_eur : ℚ
  irr_percent : ℚ
  payback_period_years : ℕ
  profitability_index : ℚ
  annual_roi_percent : ℚ
  cost_per_ton_co2_avoided_eur : ℚ
  revenue_per_ton_co_eur : ℚ
  total_capex_eur : ℚ
  annual_revenue_eur : ℚ
  annual_opex_eur : ℚ
  annual_profit_eur : ℚ
deriving DecidableEq

/-- Embeds `FinancialModel.calculate_financial_metrics` (lines 258-316) applied to
an already generated schedule. The profitability index and annual ROI are guarded
by `if total_capex > 0` in the source; the divisions of lines 292 and 293
(cost per ton avoided, revenue per ton) are unguarded, so a zero denominator
raises ZeroDivisionError, in source order. -/
def calculate_financial_metrics (p : ProjectParameters) (cs : CostStructure)
    (cash_flows : List CashFlowEntry) : Except PyErr FinancialMetrics :=
  let nets := cash_flows.map CashFlowEntry.net_cash_flow
  let cums := cash_flows.map CashFlowEntry.cumulative_cash_flow
  let npv := npvOf p.discount_rate nets
  let irr := estimate_irr nets
  let payback := calculate_payback_period cums
  let total_capex := cs.total_capex
  let profitability_index := if total_capex > 0 then (npv + total_capex) / total_capex else 0
  let annual_revenue := cs.total_revenue
  let annual_opex := cs.total_opex
  let annual_profit := annual_revenue - annual_opex
  let annual_roi := if total_capex > 0 then annual_profit / total_capex * 100 else 0
  let co2_avoided_tpy := p.co2_input_tpy
  if co2_avoided_tpy * (p.project_lifetime_years : ℚ) = 0 then Except.error PyErr.zeroDivision
  else if p.co_output_tpy = 0 then Except.error PyErr.zeroDivision
  else Except.ok
    { npv_eur := npv
      irr_percent := irr
      payback_period_years := payback
      profitability_index := profitability_index
      annual_roi_percent := annual_roi
      cost_per_ton_co2_avoided_eur :=
        -npv / (co2_avoided_tpy * (p.project_lifetime_years : ℚ))
      revenue_per_ton_co_eur := cs.co_sales_revenue / p.co_output_tpy
      total_capex_eur := total_capex
      annual_revenue_eur := annual_revenue
      annual_opex_eur := annual_opex
      annual_profit_eur := annual_profit }

/-! ### Specification-side definitions and concrete inputs -/

/-- The CO2 score formula as the specification states it, with the concentration
term clamped to the interval from 0 to 30. Written from the spec wording, to be
compared with `calculate_co2_score`. -/
def claimed_co2_score (site : SiteMetrics) : ℚ :=
  let volume_score := min 50 (site.co2_volume_tpy / 1000 * 50)
  let concentration_score := min 30 (max 0 ((site.co2_concentration - 20) / 80 * 30))
  min 100 (max 0 (volume_score + concentration_score + 20))

/-- The utility lookup as the specification states it: an unknown category falls
to the lowest tier of the table, 10 points. Written from the spec wording. -/
def claimed_utility_scores_get (u : String) : ℚ :=
  if u = "Excellent" then 30
  else if u = "Good" then 25
  else if u = "Fair" then 20
  else if u = "Poor" then 10
  else 10

/-- The transport lookup as the specification states it: unknown falls to the
lowest tier, 10 points. Written from the spec wording. -/
def claimed_transport_scores_get (t : String) : ℚ :=
  if t = "Excellent" then 30
  else if t = "Good" then 25
  else if t = "Fair" then 20
  else if t = "Poor" then 10
  else 10

/-- The infrastructure score as the specification states it, with unknown
categories at the lowest tier of each table. Written from the spec wording. -/
def claimed_infrastructure_score (site : SiteMetrics) : ℚ :=
  min 100 (max 0 (zone_scores_get site.industrial_zone +
    claimed_utility_scores_get site.utility_availability +
    claimed_transport_scores_get site.transport_access))

/-- The BASF-like sample site from the bottom of site_screening.py (lines 296-327). -/
def basfSite : SiteMetrics :=
  { site_id := "DE001", name := "BASF Ludwigshafen", country := "DE",
    region := "Rhineland-Palatinate", latitude := 49.4811, longitude := 8.4353,
    co2_volume_tpy := 3200000, co2_concentration := 85, co2_impurities := "Low",
    co2_availability_score := 0, power_price_eur_mwh := 75, power_availability := 99.5,
    renewable_energy_share := 25, energy_score := 0, emissions_intensity := 450,
    eu_ets_price := 85, cbam_applicable := true, policy_score := 0,
    industrial_zone := "Chemical", utility_availability := "Excellent",
    transport_access := "Excellent", infrastructure_score := 0, labor_costs := 35,
    land_costs := 200, tax_incentives := 15, financial_score := 0,
    total_score := 0, ranking := 0 }

/-- A site with zero CO2 volume and zero concentration: the concentration term
of the source formula is negative there. -/
def lowConcSite : SiteMetrics :=
  { basfSite with co2_volume_tpy := 0, co2_concentration := 0 }

/-- A site whose utility availability string is not a key of the lookup table. -/
def unknownUtilSite : SiteMetrics :=
  { basfSite with utility_availability := "Unknown" }

/-- A site with unknown strings in all three categorical fields. -/
def junkCategoriesSite : SiteMetrics :=
  { basfSite with industrial_zone := "Z1", utility_availability := "Z2", transport_access := "Z3" }

/-- Forget the ranking field of a site (set it to its zero default), used to
compare the evaluated output with the scored input up to ranking assignment. -/
def eraseRanking (s : SiteMetrics) : SiteMetrics := { s with ranking := 0 }

/-- The sample site with its five sub-scores and weighted total filled in. -/
def basfScored : SiteMetrics := scoreSite defaultWeights basfSite

/-- An engine holding the sample site, with the default weights. -/
def engineBASF : SiteScreeningEngine :=
  { sites := [basfSite], weights := defaultWeights }

/-- A field mapping that is missing the required field `name`; the other fields
carry the sample-site values. -/
def missingNameData : SiteData :=
  { site_id := some "DE001", name := none, country := some "DE",
    region := some "Rhineland-Palatinate", latitude := some 49.4811,
    longitude := some 8.4353, co2_volume_tpy := some 3200000,
    co2_concentration := some 85, co2_impurities := some "Low",
    co2_availability_score := some 0, power_price_eur_mwh := some 75,
    power_availability := some 99.5, renewable_energy_share := some 25,
    energy_score := some 0, emissions_intensity := some 450,
    eu_ets_price := some 85, cbam_applicable := some true, policy_score := some 0,
    industrial_zone := some "Chemical", utility_availability := some "Excellent",
    transport_access := some "Excellent", infrastructure_score := some 0,
    labor_costs := some 35, land_costs := some 200, tax_incentives := some 15,
    financial_score := some 0, total_score := some 0, ranking := some 0 }

/-- The same mapping with every required field present. -/
def completeData : SiteData :=
  { missingNameData with name := some "BASF Ludwigshafen" }

/-- The sample project of financial_modeling.py lines 403-411, dataclass defaults
filled in. -/
def exampleParams : ProjectParameters :=
  { project_name := "Turnover Labs FOAK Pilot", site_name := "BASF Ludwigshafen",
    co2_input_tpy := 100, co_output_tpy := 50, project_lifetime_years := 20,
    construction_period_years := 2, ramp_up_period_years := 1,
    discount_rate := 0.10, inflation_rate := 0.02, tax_rate := 0.25,
    eu_ets_price_eur_ton := 85, cbam_applicable := true,
    carbon_credit_price_eur_ton := 85 }

/-- The sample project with zero product output. -/
def degenParams : ProjectParameters :=
  { exampleParams with co_output_tpy := 0 }

/-- A cost structure with total capex 2700000 and the revenue and opex totals of
a small plant; only the totals are read by the cash-flow generator. -/
def degenCost : CostStructure :=
  { equipment_capex := 2000000, installation_capex := 300000,
    engineering_capex := 200000, contingency_capex := 400000,
    total_capex := 2700000, electricity_cost := 0, water_cost := 0,
    labor_cost := 0, maintenance_cost := 0, insurance_cost := 0,
    total_opex := 100000, co_sales_revenue := 40000,
    carbon_credits_revenue := 8500, avoided_co2_costs := 8500,
    total_revenue := 57000 }

/-- A three-year project: one construction year, no ramp-up, two operating years. -/
def irrParams : ProjectParameters :=
  { project_name := "irr-example", site_name := "s", co2_input_tpy := 1,
    co_output_tpy := 1, project_lifetime_years := 3,
    construction_period_years := 1, ramp_up_period_years := 0,
    discount_rate := 0.10, inflation_rate := 0.02, tax_rate := 0.25,
    eu_ets_price_eur_ton := 85, cbam_applicable := true,
    carbon_credit_price_eur_ton := 85 }

/-- Cost structure for the three-year project: 100 invested, 60 returned per
operating year. Its generated net flows are -100, 60, 60. -/
def irrCost : CostStructure :=
  { equipment_capex := 100, installation_capex := 0, engineering_capex := 0,
    contingency_capex := 0, total_capex := 100, electricity_cost := 0,
    water_cost := 0, labor_cost := 0, maintenance_cost := 0, insurance_cost := 0,
    total_opex := 0, co_sales_revenue := 60, carbon_credits_revenue := 0,
    avoided_co2_costs := 0, total_revenue := 60 }

/-- The schedule the generator produces for the three-year project: one
construction year with the full capex of 100 (one construction year), then two
operating years at net 60. -/
def irrSchedule : List CashFlowEntry :=
  [{ year := 0, phase := Phase.construction, capex := -100, opex := 0, revenue := 0,
     net_cash_flow := -100, cumulative_cash_flow := -100 },
   { year := 1, phase := Phase.operation, capex := 0, opex := 0, revenue := 60,
     net_cash_flow := 60, cumulative_cash_flow := -40 },
   { year := 2, phase := Phase.operation, capex := 0, opex := 0, revenue := 60,
     net_cash_flow := 60, cumulative_cash_flow := 20 }]

/-- The metrics of the three-year project, written out: net present value at the
10 percent discount rate is 500/121, the estimated IRR is 40, payback in year 2. -/
def irrMetrics : FinancialMetrics :=
  { npv_eur := 500/121, irr_percent := 40, payback_period_years := 2,
    profitability_index := 126/121, annual_roi_percent := 60,
    cost_per_ton_co2_avoided_eur := -500/363, revenue_per_ton_co_eur := 60,
    total_capex_eur := 100, annual_revenue_eur := 60, annual_opex_eur := 0,
    annual_profit_eur := 60 }

/-! ### Shared helper lemmas -/

/-- An absent numeric criterion leaves the list unchanged. -/
theorem applyNumFilter_none (t : ℚ → SiteMetrics → Bool) (l : List SiteMetrics) :
    applyNumFilter none t l = l := rfl

/-- A zero numeric criterion is falsy and leaves the list unchanged. -/
theorem applyNumFilter_zero (t : ℚ → SiteMetrics → Bool) (l : List SiteMetrics) :
    applyNumFilter (some 0) t l = l := by
  show (if (0 : ℚ) ≠ 0 then l.filter (t 0) else l) = l
  rw [if_neg]
  simp

/-- A numeric criterion block returns a sublist of its input. -/
theorem applyNumFilter_sublist (o : Option ℚ) (t : ℚ → SiteMetrics → Bool)
    (l : List SiteMetrics) : (applyNumFilter o t l).Sublist l := by
  rcases o with _ | v
  · exact List.Sublist.refl l
  · show (if v ≠ 0 then l.filter (t v) else l).Sublist l
    by_cases h : v ≠ 0
    · rw [if_pos h]; exact List.filter_sublist l
    · rw [if_neg h]

/-- An absent country criterion leaves the list unchanged. -/
theorem applyCountryFilter_none (l : List SiteMetrics) :
    applyCountryFilter none l = l := rfl

/-- An empty country list is falsy and leaves the list unchanged. -/
theorem applyCountryFilter_nil (l : List SiteMetrics) :
    applyCountryFilter (some []) l = l := by
  simp [applyCountryFilter]

/-- The country block returns a sublist of its input. -/
theorem applyCountryFilter_sublist (o : Option (List String)) (l : List SiteMetrics) :
    (applyCountryFilter o l).Sublist l := by
  rcases o with _ | cs
  · exact List.Sublist.refl l
  · show (if cs ≠ [] then l.filter _ else l).Sublist l
    by_cases h : cs ≠ []
    · rw [if_pos h]; exact List.filter_sublist l
    · rw [if_neg h]

/-- Running sums distribute over append, restarting from the accumulated total. -/
theorem runningSumsAux_append (a : ℚ) (xs ys : List ℚ) :
    runningSumsAux a (xs ++ ys) = runningSumsAux a xs ++ runningSumsAux (a + xs.sum) ys := by
  induction xs generalizing a with
  | nil => simp [runningSumsAux]
  | cons x xs ih => simp [runningSumsAux, ih, add_assoc]

/-- The last running sum is the accumulator plus the total of the flows. -/
theorem runningSumsAux_getLast (a : ℚ) (xs : List ℚ) (h : xs ≠ []) :
    (runningSumsAux a xs).getLast? = some (a + xs.sum) := by
  induction xs generalizing a with
  | nil => exact absurd rfl h
  | cons x xs ih =>
    cases xs with
    | nil => simp [runningSumsAux]
    | cons y ys =>
      have h2 := ih (a + x) (List.cons_ne_nil y ys)
      rw [runningSumsAux] at h2
      rw [runningSumsAux, runningSumsAux, List.getLast?_cons_cons, h2]
      simp [add_assoc]

/-- An accumEntries phase block has exactly n entries. -/
theorem accumEntries_length (ph : Phase) (cap op rev net : ℚ) :
    ∀ (start : ℕ) (cum : ℚ) (n : ℕ),
      (accumEntries ph cap op rev net start cum n).length = n
  | _, _, 0 => rfl
  | start, cum, n + 1 => by
    simp [accumEntries, accumEntries_length ph cap op rev net (start + 1) (cum + net) n]

/-- The year column of an accumEntries block counts up from its start year. -/
theorem accumEntries_map_year (ph : Phase) (cap op rev net : ℚ) :
    ∀ (start : ℕ) (cum : ℚ) (n : ℕ),
      (accumEntries ph cap op rev net start cum n).map CashFlowEntry.year =
        List.range' start n
  | _, _, 0 => rfl
  | start, cum, n + 1 => by
    rw [accumEntries, List.map_cons,
      accumEntries_map_year ph cap op rev net (start + 1) (cum + net) n,
      List.range'_succ]

/-- All net flows of an accumEntries block equal the common per-year net flow. -/
theorem accumEntries_map_net (ph : Phase) (cap op rev net : ℚ) :
    ∀ (start : ℕ) (cum : ℚ) (n : ℕ),
      (accumEntries ph cap op rev net start cum n).map CashFlowEntry.net_cash_flow =
        List.replicate n net
  | _, _, 0 => rfl
  | start, cum, n + 1 => by
    rw [accumEntries, List.map_cons,
      accumEntries_map_net ph cap op rev net (start + 1) (cum + net) n,
      List.replicate_succ]

/-- The cumulative column of an accumEntries block is the running sum of its net
flows, seeded with the incoming cumulative value. -/
theorem accumEntries_map_cum (ph : Phase) (cap op rev net : ℚ) :
    ∀ (start : ℕ) (cum : ℚ) (n : ℕ),
      (accumEntries ph cap op rev net start cum n).map CashFlowEntry.cumulative_cash_flow =
        runningSumsAux cum (List.replicate n net)
  | _, _, 0 => rfl
  | start, cum, n + 1 => by
    rw [accumEntries, List.map_cons,
      accumEntries_map_cum ph cap op rev net (start + 1) (cum + net) n,
      List.replicate_succ, runningSumsAux]

/-- Every entry of an accumEntries block carries the common phase label, capex,
opex, revenue and net flow. -/
theorem accumEntries_mem (ph : Phase) (cap op rev net : ℚ) :
    ∀ (start : ℕ) (cum : ℚ) (n : ℕ),
      ∀ e ∈ accumEntries ph cap op rev net start cum n,
        e.phase = ph ∧ e.capex = cap ∧ e.opex = op ∧ e.revenue = rev ∧
          e.net_cash_flow = net
  | _, _, 0 => by intro e he; exact absurd he (List.not_mem_nil e)
  | start, cum, n + 1 => by
    intro e he
    rw [accumEntries, List.mem_cons] at he
    rcases he with rfl | he
    · exact ⟨rfl, rfl, rfl, rfl, rfl⟩
    · exact accumEntries_mem ph cap op rev net (start + 1) (cum + net) n e he

/-- A construction block has exactly n entries. -/
theorem constructionEntries_length (a : ℚ) (n : ℕ) :
    (constructionEntries a n).length = n := by
  simp [constructionEntries]

/-- The year column of the construction block is 0, 1, ..., n-1. -/
theorem constructionEntries_map_year (a : ℚ) (n : ℕ) :
    (constructionEntries a n).map CashFlowEntry.year = List.range n := by
  unfold constructionEntries
  rw [List.map_map]
  exact List.map_id'' (fun x => rfl) (List.range n)

/-- All construction net flows equal the negated yearly capex share. -/
theorem constructionEntries_map_net (a : ℚ) (n : ℕ) :
    (constructionEntries a n).map CashFlowEntry.net_cash_flow =
      List.replicate n (-a) := by
  unfold constructionEntries
  rw [List.map_map]
  have h := List.map_const' (List.range n) (-a)
  rw [List.length_range] at h
  exact (List.map_congr_left fun y _ => rfl).trans h

/-- Auxiliary form of the construction cumulative column over a shifted range. -/
theorem constructionEntries_cum_aux (a : ℚ) : ∀ (n s : ℕ),
    ((List.range' s n).map fun y =>
      ({ year := y, phase := Phase.construction, capex := -a, opex := 0, revenue := 0,
         net_cash_flow := -a, cumulative_cash_flow := -a * ((y : ℚ) + 1) } :
        CashFlowEntry)).map CashFlowEntry.cumulative_cash_flow =
      runningSumsAux (-a * (s : ℚ)) (List.replicate n (-a))
  | 0, s => rfl
  | n + 1, s => by
    rw [List.range'_succ, List.map_cons, List.map_cons, List.replicate_succ,
      runningSumsAux, constructionEntries_cum_aux a n (s + 1)]
    congr 2
    · push_cast
      ring
    · push_cast
      ring

/-- The cumulative column of the construction block, written directly by the
source as -annual_capex * (year + 1), is exactly the running sum of its net
flows starting from zero. -/
theorem constructionEntries_map_cum (a : ℚ) (n : ℕ) :
    (constructionEntries a n).map CashFlowEntry.cumulative_cash_flow =
      runningSumsAux 0 (List.replicate n (-a)) := by
  have h := constructionEntries_cum_aux a n 0
  simpa [constructionEntries, List.range_eq_range'] using h

/-- Every construction entry carries the construction phase label and the common
capex outflow, with zero opex and revenue. -/
theorem constructionEntries_mem (a : ℚ) (n : ℕ) :
    ∀ e ∈ constructionEntries a n,
      e.phase = Phase.construction ∧ e.capex = -a ∧ e.opex = 0 ∧ e.revenue = 0 ∧
        e.net_cash_flow = -a := by
  intro e he
  obtain ⟨y, -, rfl⟩ := List.mem_map.mp he
  exact ⟨rfl, rfl, rfl, rfl, rfl⟩

/-- Reading the last cumulative value of a block whose cumulative column is a
running sum gives the seed plus the block total. -/
theorem lastCum_of_map (l : List CashFlowEntry) (a : ℚ) (nets : List ℚ)
    (hmap : l.map CashFlowEntry.cumulative_cash_flow = runningSumsAux a nets)
    (hne : nets ≠ []) : lastCum l = a + nets.sum := by
  unfold lastCum
  rw [← List.getLast?_map, hmap, runningSumsAux_getLast a nets hne]
  rfl

/-- Two adjacent ranges starting at zero concatenate. -/
theorem range_zero_append (m n : ℕ) :
    List.range' 0 m ++ List.range' m n = List.range' 0 (n + m) := by
  simpa using List.range'_append_1 0 m n

/-- The sort comparison is transitive. -/
theorem scoreLE_trans : ∀ (a b c : SiteMetrics), scoreLE a b → scoreLE b c → scoreLE a c := by
  intro a b c hab hbc
  simp only [scoreLE, decide_eq_true_eq] at *
  exact le_trans hbc hab

/-- The sort comparison is total. -/
theorem scoreLE_total : ∀ (a b : SiteMetrics), scoreLE a b || scoreLE b a := by
  intro a b
  simp only [scoreLE, Bool.or_eq_true, decide_eq_true_eq]
  exact le_total b.total_score a.total_score

/-- Assigning ranks does not change the length. -/
theorem assignRanks_length : ∀ (k : ℕ) (l : List SiteMetrics),
    (assignRanks k l).length = l.length
  | _, [] => rfl
  | k, s :: rest => by
    simp [assignRanks, assignRanks_length (k + 1) rest]

/-- Assigning ranks does not change the total score at any position. -/
theorem assignRanks_get_total (k : ℕ) (l : List SiteMetrics) :
    ∀ (i : ℕ) (hi : i < (assignRanks k l).length) (hi2 : i < l.length),
      ((assignRanks k l).get ⟨i, hi⟩).total_score = (l.get ⟨i, hi2⟩).total_score := by
  induction l generalizing k with
  | nil => intro i hi hi2; simp at hi2
  | cons s rest ih =>
    intro i hi hi2
    cases i with
    | zero => rfl
    | succ i => exact ih (k + 1) i (Nat.lt_of_succ_lt_succ hi) (Nat.lt_of_succ_lt_succ hi2)

/-- The rank written at 0-based position i, starting the counter at k, is k + i + 1. -/
theorem assignRanks_get_ranking (k : ℕ) (l : List SiteMetrics) :
    ∀ (i : ℕ) (hi : i < (assignRanks k l).length),
      ((assignRanks k l).get ⟨i, hi⟩).ranking = k + i + 1 := by
  induction l generalizing k with
  | nil => intro i hi; simp [assignRanks] at hi
  | cons s rest ih =>
    intro i hi
    cases i with
    | zero => rfl
    | succ i =>
      exact (ih (k + 1) i (Nat.lt_of_succ_lt_succ hi)).trans (by omega)

/-- Up to the ranking field, assigning ranks is the identity. -/
theorem assignRanks_map_erase : ∀ (k : ℕ) (l : List SiteMetrics),
    (assignRanks k l).map eraseRanking = l.map eraseRanking
  | _, [] => rfl
  | k, s :: rest => by
    show eraseRanking { s with ranking := k + 1 } :: (assignRanks (k + 1) rest).map eraseRanking =
      eraseRanking s :: rest.map eraseRanking
    rw [assignRanks_map_erase (k + 1) rest]
    rfl

/-- The generated schedule, for any cost totals and any period split with at
least one construction year and construction + ramp-up within the lifetime, has
exactly life entries, sequential years, cumulative flows that are the running
sums of the net flows, and decomposes into the three phase blocks. -/
theorem scheduleOf_parts (tcap topex trev : ℚ) (con ramp life : ℕ)
    (h1 : 1 ≤ con) (h2 : con + ramp ≤ life) :
    (scheduleOf tcap topex trev con ramp life).length = life ∧
    (scheduleOf tcap topex trev con ramp life).map CashFlowEntry.year =
      List.range life ∧
    (scheduleOf tcap topex trev con ramp life).map CashFlowEntry.cumulative_cash_flow =
      runningSums ((scheduleOf tcap topex trev con ramp life).map
        CashFlowEntry.net_cash_flow) ∧
    ∃ A B C, scheduleOf tcap topex trev con ramp life = A ++ B ++ C ∧
      A.length = con ∧ B.length = ramp ∧ C.length = life - con - ramp ∧
      (∀ e ∈ A, e.phase = Phase.construction ∧ e.capex = -(tcap / (con : ℚ)) ∧
        e.opex = 0 ∧ e.revenue = 0 ∧ e.net_cash_flow = -(tcap / (con : ℚ))) ∧
      (∀ e ∈ B, e.phase = Phase.rampUp ∧ e.capex = 0 ∧ e.opex = -(topex * 0.5) ∧
        e.revenue = trev * 0.5 ∧ e.net_cash_flow = trev * 0.5 - topex * 0.5) ∧
      (∀ e ∈ C, e.phase = Phase.operation ∧ e.capex = 0 ∧ e.opex = -topex ∧
        e.revenue = trev ∧ e.net_cash_flow = trev - topex) := by
  simp only [scheduleOf]
  refine ⟨?_, ?_, ?_, ?_⟩
  · simp only [List.length_append, constructionEntries_length, accumEntries_length]
    omega
  · rw [List.map_append, List.map_append, constructionEntries_map_year,
      accumEntries_map_year, accumEntries_map_year, List.append_assoc,
      List.range'_append_1, List.range_eq_range', range_zero_append,
      show life - con - ramp + ramp + con = life by omega]
    exact (List.range_eq_range' life).symm
  · have hAc := constructionEntries_map_cum (tcap / (con : ℚ)) con
    have hAnn : List.replicate con (-(tcap / (con : ℚ))) ≠ [] := by
      simp only [ne_eq, List.replicate_eq_nil_iff]
      omega
    have hlastA := lastCum_of_map _ 0 _ hAc hAnn
    have hBc := accumEntries_map_cum Phase.rampUp 0 (-(topex * 0.5)) (trev * 0.5)
      (trev * 0.5 - topex * 0.5) con
      (lastCum (constructionEntries (tcap / (con : ℚ)) con)) ramp
    have hABc : ((constructionEntries (tcap / (con : ℚ)) con ++
        accumEntries Phase.rampUp 0 (-(topex * 0.5)) (trev * 0.5)
          (trev * 0.5 - topex * 0.5) con
          (lastCum (constructionEntries (tcap / (con : ℚ)) con)) ramp)).map
        CashFlowEntry.cumulative_cash_flow =
        runningSumsAux 0 (List.replicate con (-(tcap / (con : ℚ))) ++
          List.replicate ramp (trev * 0.5 - topex * 0.5)) := by
      rw [List.map_append, hAc, hBc, hlastA, runningSumsAux_append]
    have hABnn : List.replicate con (-(tcap / (con : ℚ))) ++
        List.replicate ramp (trev * 0.5 - topex * 0.5) ≠ [] :=
      List.append_ne_nil_of_left_ne_nil hAnn _
    have hlastAB := lastCum_of_map _ 0 _ hABc hABnn
    have hCc := accumEntries_map_cum Phase.operation 0 (-topex) trev (trev - topex)
      (con + ramp)
      (lastCum (constructionEntries (tcap / (con : ℚ)) con ++
        accumEntries Phase.rampUp 0 (-(topex * 0.5)) (trev * 0.5)
          (trev * 0.5 - topex * 0.5) con
          (lastCum (constructionEntries (tcap / (con : ℚ)) con)) ramp))
      (life - con - ramp)
    rw [List.map_append, List.map_append, hAc, hBc, hCc, hlastAB, hlastA,
      List.map_append, List.map_append, constructionEntries_map_net,
      accumEntries_map_net, accumEntries_map_net, runningSums,
      runningSumsAux_append, runningSumsAux_append]
  · refine ⟨_, _, _, rfl, constructionEntries_length _ _,
      accumEntries_length _ _ _ _ _ _ _ _, accumEntries_length _ _ _ _ _ _ _ _,
      constructionEntries_mem _ _, accumEntries_mem _ _ _ _ _ _ _ _,
      accumEntries_mem _ _ _ _ _ _ _ _⟩

/-- C4: for parameters with at least one construction year and construction +
ramp-up within the project lifetime, generate_cash_flows returns exactly
project_lifetime_years entries: the construction block (capex outflow
total_capex / construction years, zero opex and revenue), then the ramp-up block
at half revenue and opex, then the remaining full-operation block; the year
column is 0, 1, 2, ... and the cumulative column is the running sum of the net
column. -/
theorem cash_flow_schedule_structure (p : ProjectParameters) (cs : CostStructure)
    (h1 : 1 ≤ p.construction_period_years)
    (h2 : p.construction_period_years + p.ramp_up_period_years ≤
      p.project_lifetime_years) :
    ∃ l : List CashFlowEntry,
      generate_cash_flows p cs = Except.ok l ∧
      l.length = p.project_lifetime_years ∧
      l.map CashFlowEntry.year = List.range p.project_lifetime_years ∧
      l.map CashFlowEntry.cumulative_cash_flow =
        runningSums (l.map CashFlowEntry.net_cash_flow) ∧
      ∃ A B C, l = A ++ B ++ C ∧
        A.length = p.construction_period_years ∧
        B.length = p.ramp_up_period_years ∧
        C.length = p.project_lifetime_years - p.construction_period_years -
          p.ramp_up_period_years ∧
        (∀ e ∈ A, e.phase = Phase.construction ∧
          e.capex = -(cs.total_capex / (p.construction_period_years : ℚ)) ∧
          e.opex = 0 ∧ e.revenue = 0 ∧
          e.net_cash_flow = -(cs.total_capex / (p.construction_period_years : ℚ))) ∧
        (∀ e ∈ B, e.phase = Phase.rampUp ∧ e.capex = 0 ∧
          e.opex = -(cs.total_opex * 0.5) ∧ e.revenue = cs.total_revenue * 0.5 ∧
          e.net_cash_flow = cs.total_revenue * 0.5 - cs.total_opex * 0.5) ∧
        (∀ e ∈ C, e.phase = Phase.operation ∧ e.capex = 0 ∧
          e.opex = -cs.total_opex ∧ e.revenue = cs.total_revenue ∧
          e.net_cash_flow = cs.total_revenue - cs.total_opex) := by
  have hne : p.construction_period_years ≠ 0 := by omega
  have hgen : generate_cash_flows p cs = Except.ok (scheduleOf cs.total_capex
      cs.total_opex cs.total_revenue p.construction_period_years
      p.ramp_up_period_years p.project_lifetime_years) := by
    simp only [generate_cash_flows]
    rw [if_neg hne]
  obtain ⟨hlen, hyears, hcums, hparts⟩ := scheduleOf_parts cs.total_capex
    cs.total_opex cs.total_revenue p.construction_period_years
    p.ramp_up_period_years p.project_lifetime_years h1 h2
  exact ⟨_, hgen, hlen, hyears, hcums, hparts⟩

/-- Witness for C4: the sample project (lifetime 20, construction 2, ramp-up 1)
satisfies both hypotheses and its schedule has exactly 20 entries. -/
theorem cash_flow_schedule_structure_witness :
    1 ≤ exampleParams.construction_period_years ∧
    exampleParams.construction_period_years + exampleParams.ramp_up_period_years ≤
      exampleParams.project_lifetime_years ∧
    ∃ l, generate_cash_flows exampleParams degenCost = Except.ok l ∧
      l.length = exampleParams.project_lifetime_years :=
  ⟨by decide, by decide,
    (cash_flow_schedule_structure exampleParams degenCost
      (by decide) (by decide)).elim fun l hl => ⟨l, hl.1, hl.2.1⟩⟩

/-- C5: for every site collection and weight vector, the evaluated sequence is
sorted descending by total_score, each ranking field is the 1-based position,
and two sites with equal total_score keep their relative order from the scored
input sequence (stability), compared up to the overwritten ranking field. -/
theorem evaluate_sites_ranking (w : Weights) (sites : List SiteMetrics) :
    (∀ (i j : ℕ) (hi : i < (evaluate_sites w sites).length)
      (hj : j < (evaluate_sites w sites).length), i < j →
      ((evaluate_sites w sites).get ⟨j, hj⟩).total_score ≤
        ((evaluate_sites w sites).get ⟨i, hi⟩).total_score) ∧
    (∀ (i : ℕ) (hi : i < (evaluate_sites w sites).length),
      ((evaluate_sites w sites).get ⟨i, hi⟩).ranking = i + 1) ∧
    (∀ a b : SiteMetrics, [a, b].Sublist (sites.map (scoreSite w)) →
      a.total_score = b.total_score →
      ([a, b].map eraseRanking).Sublist
        ((evaluate_sites w sites).map eraseRanking)) := by
  have hlen : (evaluate_sites w sites).length =
      (List.mergeSort (sites.map (scoreSite w)) scoreLE).length :=
    assignRanks_length 0 (List.mergeSort (sites.map (scoreSite w)) scoreLE)
  refine ⟨?_, ?_, ?_⟩
  · intro i j hi hj hij
    have hi2 : i < (List.mergeSort (sites.map (scoreSite w)) scoreLE).length := by
      rw [← hlen]; exact hi
    have hj2 : j < (List.mergeSort (sites.map (scoreSite w)) scoreLE).length := by
      rw [← hlen]; exact hj
    have hp := (List.pairwise_iff_get.mp
      (List.sorted_mergeSort scoreLE_trans scoreLE_total (sites.map (scoreSite w))))
      ⟨i, hi2⟩ ⟨j, hj2⟩ hij
    simp only [scoreLE, decide_eq_true_eq] at hp
    show ((assignRanks 0 (List.mergeSort (sites.map (scoreSite w)) scoreLE)).get
        ⟨j, hj⟩).total_score ≤
      ((assignRanks 0 (List.mergeSort (sites.map (scoreSite w)) scoreLE)).get
        ⟨i, hi⟩).total_score
    rw [assignRanks_get_total 0 _ j hj hj2, assignRanks_get_total 0 _ i hi hi2]
    exact hp
  · intro i hi
    show ((assignRanks 0 (List.mergeSort (sites.map (scoreSite w)) scoreLE)).get
        ⟨i, hi⟩).ranking = i + 1
    exact (assignRanks_get_ranking 0 _ i hi).trans (by omega)
  · intro a b hsub heq
    have hab : scoreLE a b := by
      simp only [scoreLE, decide_eq_true_eq]
      exact le_of_eq heq.symm
    have h2 := List.pair_sublist_mergeSort scoreLE_trans scoreLE_total hab hsub
    have h3 := h2.map eraseRanking
    show ([a, b].map eraseRanking).Sublist
      ((assignRanks 0 (List.mergeSort (sites.map (scoreSite w)) scoreLE)).map
        eraseRanking)
    rw [assignRanks_map_erase]
    exact h3

/-- Witness for C5: a collection holding the sample site twice ties on
total_score, and the tied pair keeps its insertion order in the evaluated
output. -/
theorem evaluate_sites_ranking_witness :
    ([basfScored, basfScored].Sublist
      ([basfSite, basfSite].map (scoreSite defaultWeights)) ∧
      basfScored.total_score = basfScored.total_score) ∧
    ([basfScored, basfScored].map eraseRanking).Sublist
      ((evaluate_sites defaultWeights [basfSite, basfSite]).map eraseRanking) :=
  ⟨⟨List.Sublist.refl _, rfl⟩,
    (evaluate_sites_ranking defaultWeights [basfSite, basfSite]).2.2 basfScored
      basfScored (List.Sublist.refl _) rfl⟩

/-! ### Claim theorems -/

/-- C2 counterexample: for equipment_cost 2000000 with the default factors the
code returns total_capex 2900000, which is indeed 2000000 * (1 + 0.15 + 0.10 +
0.20) but is not the 2700000 the claim asserts: the claim carries an arithmetic
slip, since the factor sum is 1.45, not 1.35. -/
theorem capex_claim_counterexample :
    ∃ cs : CostStructure,
      calculate_capex exampleParams 2000000 0.15 0.10 0.20 = Except.ok cs ∧
      cs.total_capex = 2900000 ∧ cs.total_capex ≠ 2700000 := by
  have h : exampleParams.construction_period_years ≠ 0 := by
    norm_num [exampleParams]
  simp only [calculate_capex]
  rw [if_neg h]
  refine ⟨_, rfl, by norm_num, by norm_num⟩

/-- C2 (amended): for equipment_cost 2000000 with the default factors 0.15,
0.10, 0.20, calculate_capex returns a cost structure whose total_capex equals
2000000 * (1 + 0.15 + 0.10 + 0.20), which is exactly 2900000. -/
theorem capex_total_formula (p : ProjectParameters) (h : p.construction_period_years ≠ 0) :
    ∃ cs : CostStructure,
      calculate_capex p 2000000 0.15 0.10 0.20 = Except.ok cs ∧
      cs.total_capex = 2000000 * (1 + 0.15 + 0.10 + 0.20) ∧
      cs.total_capex = 2900000 := by
  simp only [calculate_capex]
  rw [if_neg h]
  refine ⟨_, rfl, by norm_num, by norm_num⟩

/-- Witness for C2: the sample project parameters have a nonzero construction
period, and the conclusion holds there. -/
theorem capex_total_formula_witness :
    exampleParams.construction_period_years ≠ 0 ∧
    (∃ cs : CostStructure,
      calculate_capex exampleParams 2000000 0.15 0.10 0.20 = Except.ok cs ∧
      cs.total_capex = 2000000 * (1 + 0.15 + 0.10 + 0.20) ∧
      cs.total_capex = 2900000) :=
  ⟨by decide, capex_total_formula exampleParams (by decide)⟩

/-- C3 counterexample: at a site with zero volume and zero concentration the
source formula yields 12.5 while the claimed formula (concentration term clamped
to the interval from 0 to 30) yields 20, so the claim as stated is false. -/
theorem co2_score_claim_counterexample :
    calculate_co2_score lowConcSite = 12.5 ∧
    claimed_co2_score lowConcSite = 20 ∧
    calculate_co2_score lowConcSite ≠ claimed_co2_score lowConcSite := by
  have h1 : calculate_co2_score lowConcSite = 12.5 := by
    norm_num [calculate_co2_score, lowConcSite, basfSite, min_def, max_def]
  have h2 : claimed_co2_score lowConcSite = 20 := by
    norm_num [claimed_co2_score, lowConcSite, basfSite, min_def, max_def]
  refine ⟨h1, h2, ?_⟩
  rw [h1, h2]
  norm_num

/-- C3 (amended): calculate_co2_score equals
min(100, max(0, min(50, volume/1000*50) + (concentration-20)/80*30 + 20)) with
the concentration term NOT clamped on its own (it is negative below 20 percent
concentration); on the documented concentration range from 20 to 100 the source
agrees with the claimed clamped formula, and the BASF-like input yields
exactly 94.375. -/
theorem co2_score_unclamped (site : SiteMetrics) :
    calculate_co2_score site =
      min 100 (max 0 (min 50 (site.co2_volume_tpy / 1000 * 50) +
        (site.co2_concentration - 20) / 80 * 30 + 20)) ∧
    (20 ≤ site.co2_concentration → site.co2_concentration ≤ 100 →
      calculate_co2_score site = claimed_co2_score site) ∧
    calculate_co2_score basfSite = 94.375 := by
  refine ⟨rfl, fun h1 h2 => ?_,
    by norm_num [calculate_co2_score, basfSite, min_def, max_def]⟩
  have h3 : (0 : ℚ) ≤ (site.co2_concentration - 20) / 80 * 30 := by linarith
  have h4 : (site.co2_concentration - 20) / 80 * 30 ≤ 30 := by linarith
  simp only [calculate_co2_score, claimed_co2_score]
  rw [max_eq_right h3, min_eq_right h4]

/-- Witness for C3: the BASF-like site has concentration 85, inside the range
where the source and the claimed formula agree. -/
theorem co2_score_unclamped_witness :
    (20 ≤ basfSite.co2_concentration ∧ basfSite.co2_concentration ≤ 100) ∧
    calculate_co2_score basfSite = claimed_co2_score basfSite :=
  ⟨⟨by decide, by decide⟩,
    (co2_score_unclamped basfSite).2.1 (by decide) (by decide)⟩

/-- C6 counterexample: for a site whose utility string is not a table key the
source scores the component at the dictionary default 15, not at the table
minimum 10; the full scores differ (85 versus 80), so the claim as stated is
false. -/
theorem infrastructure_claim_counterexample :
    calculate_infrastructure_score unknownUtilSite = 85 ∧
    claimed_infrastructure_score unknownUtilSite = 80 ∧
    calculate_infrastructure_score unknownUtilSite ≠
      claimed_infrastructure_score unknownUtilSite := by
  have h1 : calculate_infrastructure_score unknownUtilSite = 85 := by
    norm_num +decide [calculate_infrastructure_score, unknownUtilSite, basfSite,
      zone_scores_get, utility_scores_get, transport_scores_get, min_def, max_def]
  have h2 : claimed_infrastructure_score unknownUtilSite = 80 := by
    norm_num +decide [claimed_infrastructure_score, unknownUtilSite, basfSite,
      zone_scores_get, claimed_utility_scores_get, claimed_transport_scores_get,
      min_def, max_def]
  refine ⟨h1, h2, ?_⟩
  rw [h1, h2]
  norm_num

/-- C6 (amended): an unknown industrial zone scores 15 (the zone-table minimum),
and an unknown utility availability or transport access also scores 15, which is
the dictionary default and NOT the minimum 10 of those tables; a site with all
three unknown scores 45 in total. -/
theorem infrastructure_unknown_defaults (site : SiteMetrics)
    (hz : site.industrial_zone ∉ ["Chemical", "Refinery", "Steel", "Cement", "Power", "Other"])
    (hu : site.utility_availability ∉ ["Excellent", "Good", "Fair", "Poor"])
    (ht : site.transport_access ∉ ["Excellent", "Good", "Fair", "Poor"]) :
    zone_scores_get site.industrial_zone = 15 ∧
    utility_scores_get site.utility_availability = 15 ∧
    transport_scores_get site.transport_access = 15 ∧
    calculate_infrastructure_score site = 45 := by
  simp only [List.mem_cons, List.not_mem_nil, or_false, not_or] at hz hu ht
  obtain ⟨z1, z2, z3, z4, z5, z6⟩ := hz
  obtain ⟨u1, u2, u3, u4⟩ := hu
  obtain ⟨t1, t2, t3, t4⟩ := ht
  have e1 : zone_scores_get site.industrial_zone = 15 := by
    simp [zone_scores_get, z1, z2, z3, z4, z5, z6]
  have e2 : utility_scores_get site.utility_availability = 15 := by
    simp [utility_scores_get, u1, u2, u3, u4]
  have e3 : transport_scores_get site.transport_access = 15 := by
    simp [transport_scores_get, t1, t2, t3, t4]
  refine ⟨e1, e2, e3, ?_⟩
  simp only [calculate_infrastructure_score, e1, e2, e3]
  norm_num

/-- Witness for C6: a site with unknown strings in all three categorical fields
scores 45. -/
theorem infrastructure_unknown_defaults_witness :
    (junkCategoriesSite.industrial_zone ∉
      ["Chemical", "Refinery", "Steel", "Cement", "Power", "Other"]) ∧
    calculate_infrastructure_score junkCategoriesSite = 45 :=
  ⟨by simp +decide [junkCategoriesSite, basfSite],
    (infrastructure_unknown_defaults junkCategoriesSite
      (by simp +decide [junkCategoriesSite, basfSite])
      (by simp +decide [junkCategoriesSite, basfSite])
      (by simp +decide [junkCategoriesSite, basfSite])).2.2.2⟩

/-- C8: evaluated at a field mapping missing the required field name, the
constructor fails, add_site returns with the engine state unchanged and no error
surfaced to the caller (the silent drop of the source try/except); a complete
mapping appends exactly one site. -/
theorem add_site_silent_drop :
    buildSite missingNameData = none ∧
    add_site engineBASF missingNameData = engineBASF ∧
    (buildSite completeData).isSome = true ∧
    (add_site engineBASF completeData).sites.length = engineBASF.sites.length + 1 :=
  ⟨rfl, rfl, rfl, rfl⟩

/-- C9: with a zero construction period both calculate_capex and
generate_cash_flows fail with the division error; with a construction period of
at least one, both succeed. -/
theorem construction_period_division (p : ProjectParameters) (cs : CostStructure)
    (ec instf engf contf : ℚ) :
    (p.construction_period_years = 0 ∧
      calculate_capex p ec instf engf contf = Except.error PyErr.zeroDivision ∧
      generate_cash_flows p cs = Except.error PyErr.zeroDivision) ∨
    (1 ≤ p.construction_period_years ∧
      (calculate_capex p ec instf engf contf).isOk = true ∧
      (generate_cash_flows p cs).isOk = true) := by
  by_cases h : p.construction_period_years = 0
  · refine Or.inl ⟨h, ?_, ?_⟩
    · simp only [calculate_capex]; rw [if_pos h]
    · simp only [generate_cash_flows]; rw [if_pos h]
  · refine Or.inr ⟨Nat.one_le_iff_ne_zero.mpr h, ?_, ?_⟩
    · simp only [calculate_capex]; rw [if_neg h]; rfl
    · simp only [generate_cash_flows]; rw [if_neg h]; rfl

/-- C7: evaluated at the sample project with co_output_tpy = 0, the cash-flow
schedule generates fine but calculate_financial_metrics hits the unguarded
division of revenue per ton and raises ZeroDivisionError instead of reporting a
ComputationError sentinel. -/
theorem revenue_per_ton_unguarded_division :
    (generate_cash_flows degenParams degenCost).isOk = true ∧
    (∀ l, calculate_financial_metrics degenParams degenCost l =
      Except.error PyErr.zeroDivision) := by
  constructor
  · have h : degenParams.construction_period_years ≠ 0 := by
      norm_num [degenParams, exampleParams]
    simp only [generate_cash_flows]
    rw [if_neg h]
    rfl
  · intro l
    norm_num [calculate_financial_metrics, degenParams, exampleParams]

/-- C1: for the schedule generated from a one-year-construction, two-year
operation project with capex 100 and yearly net 60, the metrics computation
returns irr_percent 40, but the net present value at rate 40/100 is -1300/49,
not zero: the returned value is not a root of the NPV equation. -/
theorem irr_estimate_not_npv_root :
    generate_cash_flows irrParams irrCost = Except.ok irrSchedule ∧
    calculate_financial_metrics irrParams irrCost irrSchedule = Except.ok irrMetrics ∧
    irrMetrics.irr_percent = 40 ∧
    irrSchedule.map CashFlowEntry.net_cash_flow = [-100, 60, 60] ∧
    npvOf (irrMetrics.irr_percent / 100) (irrSchedule.map CashFlowEntry.net_cash_flow) =
      -1300 / 49 ∧
    npvOf (irrMetrics.irr_percent / 100) (irrSchedule.map CashFlowEntry.net_cash_flow) ≠ 0 := by
  refine ⟨?_, ?_, rfl, ?_, ?_, ?_⟩
  · norm_num [generate_cash_flows, scheduleOf, constructionEntries, irrParams,
      irrCost, irrSchedule, accumEntries, lastCum, List.range_succ]
  · norm_num [calculate_financial_metrics, irrParams, irrCost, irrSchedule, irrMetrics,
      estimate_irr, List.filter, min_def, npvOf, npvAux, calculate_payback_period,
      paybackAux]
  · norm_num [irrSchedule]
  · norm_num [irrSchedule, irrMetrics, npvOf, npvAux]
  · norm_num [irrSchedule, irrMetrics, npvOf, npvAux]

/-- C10: a falsy criterion (numeric zero, empty country list, or absent) skips
its filter block; with all criteria falsy the whole collection is returned
unchanged; in particular max_power_price 0 returns every site; and the result
is always a sublist of the stored collection (no mutation, no re-ranking). -/
theorem filter_sites_falsy_skips (e : SiteScreeningEngine)
    (mc mp : Option ℚ) (co : Option (List String)) (ms : Option ℚ) :
    filter_sites e (some 0) mp co ms = filter_sites e none mp co ms ∧
    filter_sites e mc (some 0) co ms = filter_sites e mc none co ms ∧
    filter_sites e mc mp (some []) ms = filter_sites e mc mp none ms ∧
    filter_sites e mc mp co (some 0) = filter_sites e mc mp co none ∧
    filter_sites e none (some 0) none none = e.sites ∧
    filter_sites e none none none none = e.sites ∧
    (filter_sites e mc mp co ms).Sublist e.sites := by
  refine ⟨?_, ?_, ?_, ?_, ?_, ?_, ?_⟩
  · simp only [filter_sites, applyNumFilter_zero, applyNumFilter_none]
  · simp only [filter_sites, applyNumFilter_zero, applyNumFilter_none]
  · simp only [filter_sites, applyCountryFilter_nil, applyCountryFilter_none]
  · simp only [filter_sites, applyNumFilter_zero, applyNumFilter_none]
  · simp only [filter_sites, applyNumFilter_zero, applyNumFilter_none,
      applyCountryFilter_none]
  · simp only [filter_sites, applyNumFilter_none, applyCountryFilter_none]
  · exact (applyNumFilter_sublist _ _ _).trans
      ((applyCountryFilter_sublist _ _).trans
        ((applyNumFilter_sublist _ _ _).trans (applyNumFilter_sublist _ _ _)))

end CarbonSiteAI
